import Mathlib

/-
  Verification of the Geth MCP proxy (mcpServer.js): a shallow embedding of the
  tool registry, the invocation dispatcher, the upstream JSON-RPC client and the
  hex-to-decimal result formatter, together with theorems settling the spec's
  claims about them.

  Modelling conventions:
  * JSON values are the inductive `Json` below; JavaScript `undefined` is
    modelled as the absence of a field (`Option Json` = `none`), and where the
    source lets `undefined` flow into a JSON response we model it as `Json.null`.
  * Numbers are `Int` (every number the claims touch is integral).
  * The upstream node is an oracle `Oracle : String -> List Json -> Except String Json`
    abstracting the `Except`-level behaviour of `queryGeth` (whose own body is
    verified separately against a `FetchOutcome` oracle).
  * Handlers return the list of upstream calls they issued alongside their
    result, so "zero upstream calls" claims are statable.
-/

/-- A JSON value (numbers as integers; see header). -/
inductive Json where
  | null
  | bool (b : Bool)
  | num (n : Int)
  | str (s : String)
  | arr (elems : List Json)
  | obj (fields : List (String × Json))

/-- First binding of a key in an object's field list; `none` models JavaScript
    `undefined` (absent property, or property access on a non-object). -/
def lookupField : List (String × Json) → String → Option Json
  | [], _ => none
  | (k, v) :: rest, key => if k = key then some v else lookupField rest key

/-- `j.key` property access: `none` is JavaScript `undefined`. -/
def getField (j : Json) (key : String) : Option Json :=
  match j with
  | .obj fs => lookupField fs key
  | _ => none

/-- Property access defaulting `undefined` to `null` (used where the source
    serializes a possibly-undefined value). -/
def getFieldD (j : Json) (key : String) : Json :=
  (getField j key).getD .null

/-- JavaScript truthiness of a JSON value (`null`, `false`, `0`, `""` are falsy;
    arrays and objects are always truthy). -/
def jsTruthy : Json → Bool
  | .null => false
  | .bool b => b
  | .num n => n != 0
  | .str s => s != ""
  | .arr _ => true
  | .obj _ => true

/-- JavaScript `String(v)` on a JSON value. The dispatcher only ever applies it
    to strings (tool names); the array case (JS joins elements) is modelled as
    the sole unreached by any claim. -/
def jsToString : Json → String
  | .str s => s
  | .num n => toString n
  | .bool true => "true"
  | .bool false => "false"
  | .null => "null"
  | .arr _ => ""
  | .obj _ => "[object Object]"

/-- Template interpolation of a possibly-undefined value: JS renders
    `undefined` as the string "undefined". -/
def jsTemplate : Option Json → String
  | none => "undefined"
  | some v => jsToString v

/- ---------------------------------------------------------------------------
   Result formatter: `hexToDecimalMaybe` (mcpServer.js lines 82-91)
   `BigInt(hex).toString()` is modelled by base-conversion through digit lists;
   `digitsFuel` is a fuel-driven (hence kernel-reducible) clone of `Nat.digits`.
--------------------------------------------------------------------------- -/

/-- Little-endian base-`b` digits of `n`, with explicit fuel (any fuel at least
    `n` gives the full expansion; proved equal to `Nat.digits` below). -/
def digitsFuel (b : Nat) : Nat → Nat → List Nat
  | _, 0 => []
  | 0, _ + 1 => []
  | fuel + 1, n + 1 => (n + 1) % b :: digitsFuel b fuel ((n + 1) / b)

/-- Little-endian base-`b` digits of `n` (fuel instantiated). -/
def myDigits (b n : Nat) : List Nat := digitsFuel b n n

/-- One character of a decimal numeral. -/
def decDigitChar (d : Nat) : Char := Char.ofNat (48 + d)

/-- `BigInt(n).toString()`: the base-10 numeral of `n`. -/
def decStringOfNat (n : Nat) : String :=
  if n = 0 then "0" else ⟨(myDigits 10 n).reverse.map decDigitChar⟩

/-- A hex digit character of the regex class `[0-9a-fA-F]`. -/
def isHexDigitChar (c : Char) : Bool :=
  ('0' ≤ c && c ≤ '9') || ('a' ≤ c && c ≤ 'f') || ('A' ≤ c && c ≤ 'F')

/-- The test `/^0x[0-9a-fA-F]+$/.test s`. -/
def matchesHexLiteral (s : String) : Bool :=
  match s.data with
  | '0' :: 'x' :: rest => !rest.isEmpty && rest.all isHexDigitChar
  | _ => false

/-- Numeric value of one hex digit character. -/
def hexDigitVal (c : Char) : Nat :=
  if '0' ≤ c && c ≤ '9' then c.toNat - 48
  else if 'a' ≤ c && c ≤ 'f' then c.toNat - 87
  else if 'A' ≤ c && c ≤ 'F' then c.toNat - 55
  else 0

/-- Value of a big-endian string of hex digit characters. -/
def hexCharsVal (l : List Char) : Nat :=
  l.foldl (fun a c => 16 * a + hexDigitVal c) 0

/-- Value denoted by a `0x`-prefixed hex literal (`BigInt(hex)` for literals
    passing the regex). -/
def hexStringVal (s : String) : Nat :=
  match s.data with
  | '0' :: 'x' :: rest => hexCharsVal rest
  | _ => 0

/-- mcpServer.js lines 82-91: regex-gate a string, then `BigInt(hex).toString()`;
    `null` (here `none`) for any non-matching or non-string input. (The source's
    try/catch is dead code: `BigInt` cannot throw on a regex-matched literal.) -/
def hexToDecimalMaybe : Json → Option String
  | .str s => if matchesHexLiteral s then some (decStringOfNat (hexStringVal s)) else none
  | _ => none

/-- `BigInt(decimalNumeral)`: value of a big-endian string of decimal digits. -/
def decCharsVal (l : List Char) : Nat :=
  l.foldl (fun a c => 10 * a + (c.toNat - 48)) 0

/-- Re-parse a decimal numeral as an arbitrary-precision natural. -/
def parseDecNat (s : String) : Nat := decCharsVal s.data

/-- One lowercase hex digit character. -/
def hexDigitChar (d : Nat) : Char :=
  Char.ofNat (if d < 10 then 48 + d else 87 + d)

/-- Reformat a natural as a canonical hex literal:
    `'0x' + n.toString(16)` (lowercase, no leading zeros). -/
def toHexCanonical (n : Nat) : String :=
  ⟨'0' :: 'x' :: (if n = 0 then ['0'] else (myDigits 16 n).reverse.map hexDigitChar)⟩

/-- A lowercase hex digit character. -/
def isLowerHexDigit (c : Char) : Bool :=
  ('0' ≤ c && c ≤ '9') || ('a' ≤ c && c ≤ 'f')

/-- The canonical (lowercase, no leading zero) hex literals. -/
def isCanonicalHex (s : String) : Bool :=
  match s.data with
  | '0' :: 'x' :: rest =>
      !rest.isEmpty && rest.all isLowerHexDigit &&
        (rest == ['0'] || !(rest.head? == some '0'))
  | _ => false

/- ---------------------------------------------------------------------------
   Upstream RPC client: `queryGeth` (mcpServer.js lines 47-76)
--------------------------------------------------------------------------- -/

/-- Outcome of the single `fetch` a `queryGeth` call performs: the timer fired
    and aborted it, the network failed with some error message, or an HTTP
    response with a given status and (decoded) JSON body arrived. -/
inductive FetchOutcome where
  | timeout
  | netError (msg : String)
  | resp (status : Nat) (statusText : String) (body : Json)

/-- The fixed upstream timeout (milliseconds), mcpServer.js line 53. -/
def upstreamTimeoutMs : Nat := 8000

/-- An outbound HTTP POST issued by `queryGeth`. -/
structure GethRequest where
  url : String
  body : Json

/-- mcpServer.js lines 55-57: trim one trailing slash off the endpoint URL
    (`endsWith('/')` then `slice(0, -1)`, spelled on the character list). -/
def stripTrailingSlash (u : String) : String :=
  if u.data.getLast? = some '/' then ⟨u.data.dropLast⟩ else u

/-- The JSON body `queryGeth` posts: `{jsonrpc:'2.0', method, params, id: Date.now()}`
    (`now` stands for `Date.now()`; it is unrelated to any caller's JSON-RPC id). -/
def queryGethRequestBody (method : String) (params : List Json) (now : Int) : Json :=
  .obj [("jsonrpc", .str "2.0"), ("method", .str method), ("params", .arr params),
        ("id", .num now)]

/-- mcpServer.js lines 47-76, `queryGeth`: issue one POST and normalize failures.
    Returns the `Except`-level result together with the list of requests issued. -/
def queryGeth (gethUrl : Option String) (now : Int) (method : String)
    (params : List Json) (outcome : FetchOutcome) :
    Except String Json × List GethRequest :=
  match gethUrl with
  | none => (.error "Missing GETH_URL in environment", [])
  | some u =>
    let req : GethRequest := ⟨stripTrailingSlash u, queryGethRequestBody method params now⟩
    match outcome with
    | .timeout => (.error "Upstream request timed out", [req])
    | .netError msg => (.error msg, [req])
    | .resp status statusText body =>
      if !(200 ≤ status && status ≤ 299) then
        (.error ("Upstream HTTP " ++ toString status ++ " " ++ statusText), [req])
      else
        match getField body "error" with
        | some errJ =>
          if jsTruthy errJ then
            (.error ("Geth error: " ++ jsTemplate (getField errJ "message")), [req])
          else (.ok (getFieldD body "result"), [req])
        | none => (.ok (getFieldD body "result"), [req])

/- ---------------------------------------------------------------------------
   Tool results, handlers and validators (mcpServer.js lines 95-349)
--------------------------------------------------------------------------- -/

/-- One content block of a tool result. `kind` models the source's `type` field
    (always "text"); `text` holds the structured payload whose `JSON.stringify`
    the source stores (serialization is injective, so payload equality is the
    faithful comparison). -/
structure ContentBlock where
  kind : String
  text : Json

/-- `{ content: [...] }` as returned by every tool handler. -/
structure ToolResult where
  content : List ContentBlock

/-- The upstream node as seen through `queryGeth`: method and params to the
    `Except`-level outcome (message of the thrown error, or the result). -/
abbrev Oracle := String → List Json → Except String Json

/-- One upstream RPC call: method and params. -/
abbrev UpCall := String × List Json

/-- `await queryGeth(m, ps)` followed by a pure continuation: records the single
    upstream call and propagates a thrown error. -/
def callGeth (o : Oracle) (m : String) (ps : List Json) (k : Json → ToolResult) :
    Except String ToolResult × List UpCall :=
  (match o m ps with
   | .ok v => .ok (k v)
   | .error e => .error e, [(m, ps)])

/-- `{ content: [{ type: 'text', text: JSON.stringify payload }] }`. -/
def textResult (payload : Json) : ToolResult := ⟨[⟨"text", payload⟩]⟩

/-- `hexToDecimalMaybe`'s value as serialized: a string or JSON `null`. -/
def jsonOfOptStr : Option String → Json
  | some s => .str s
  | none => .null

/-- `z.object({})`: requires an object, strips every key. Error strings of the
    validators model zod's thrown message (the claims rely on the message being
    propagated, not on its exact text). -/
def vEmptyObj : Json → Except String Json
  | .obj _ => .ok (.obj [])
  | _ => .error "Expected object"

/-- `z.object({ address: z.string(), block: z.string().optional() })`. -/
def vAddressBlock (j : Json) : Except String Json :=
  match j with
  | .obj _ =>
    match getField j "address" with
    | some (.str a) =>
      match getField j "block" with
      | none => .ok (.obj [("address", .str a)])
      | some (.str b) => .ok (.obj [("address", .str a), ("block", .str b)])
      | some _ => .error "block: Expected string"
    | some _ => .error "address: Expected string"
    | none => .error "address: Required"
  | _ => .error "Expected object"

/-- `z.object({ method: z.string(), params: z.array(z.any()).default([]) })`. -/
def vEthCallRaw (j : Json) : Except String Json :=
  match j with
  | .obj _ =>
    match getField j "method" with
    | some (.str m) =>
      match getField j "params" with
      | none => .ok (.obj [("method", .str m), ("params", .arr [])])
      | some (.arr ps) => .ok (.obj [("method", .str m), ("params", .arr ps)])
      | some _ => .error "params: Expected array"
    | some _ => .error "method: Expected string"
    | none => .error "method: Required"
  | _ => .error "Expected object"

/-- `z.object({ block: z.string(), full: z.boolean().optional() })`. -/
def vBlockFull (j : Json) : Except String Json :=
  match j with
  | .obj _ =>
    match getField j "block" with
    | some (.str b) =>
      match getField j "full" with
      | none => .ok (.obj [("block", .str b)])
      | some (.bool f) => .ok (.obj [("block", .str b), ("full", .bool f)])
      | some _ => .error "full: Expected boolean"
    | some _ => .error "block: Expected string"
    | none => .error "block: Required"
  | _ => .error "Expected object"

/-- `z.object({ hash: z.string() })`. -/
def vHash (j : Json) : Except String Json :=
  match j with
  | .obj _ =>
    match getField j "hash" with
    | some (.str h) => .ok (.obj [("hash", .str h)])
    | some _ => .error "hash: Expected string"
    | none => .error "hash: Required"
  | _ => .error "Expected object"

/-- `z.object({ to: z.string(), data: z.string(), block: z.string().optional() })`. -/
def vToDataBlock (j : Json) : Except String Json :=
  match j with
  | .obj _ =>
    match getField j "to", getField j "data" with
    | some (.str t), some (.str d) =>
      match getField j "block" with
      | none => .ok (.obj [("to", .str t), ("data", .str d)])
      | some (.str b) => .ok (.obj [("to", .str t), ("data", .str d), ("block", .str b)])
      | some _ => .error "block: Expected string"
    | none, _ => .error "to: Required"
    | some _, none => .error "data: Required"
    | _, _ => .error "to/data: Expected string"
  | _ => .error "Expected object"

/-- One optional string field of a zod object shape. -/
def optStrField (j : Json) (key : String) : Except String (List (String × Json)) :=
  match getField j key with
  | none => .ok []
  | some (.str s) => .ok [(key, .str s)]
  | some _ => .error (key ++ ": Expected string")

/-- `z.object({ to, from, data, value : z.string().optional() })` (eth_estimateGas). -/
def vTxFields (j : Json) : Except String Json :=
  match j with
  | .obj _ => do
    let a ← optStrField j "to"
    let b ← optStrField j "from"
    let c ← optStrField j "data"
    let d ← optStrField j "value"
    .ok (.obj (a ++ b ++ c ++ d))
  | _ => .error "Expected object"

/-- `z.object({ rawTx: z.string() })`. -/
def vRawTx (j : Json) : Except String Json :=
  match j with
  | .obj _ =>
    match getField j "rawTx" with
    | some (.str r) => .ok (.obj [("rawTx", .str r)])
    | some _ => .error "rawTx: Expected string"
    | none => .error "rawTx: Required"
  | _ => .error "Expected object"

/-- mcpServer.js lines 98-101 (`getBlockNumber`). -/
def getBlockNumber_handler : Json → Oracle → Except String ToolResult × List UpCall :=
  fun _args o =>
    callGeth o "eth_blockNumber" [] (fun hex =>
      textResult (.obj [("blockNumberHex", hex),
                        ("blockNumberDecimal", jsonOfOptStr (hexToDecimalMaybe hex))]))

/-- mcpServer.js lines 110-113 (`eth_getBlockNumber`, a verbatim duplicate of
    the `getBlockNumber` handler). -/
def eth_getBlockNumber_handler : Json → Oracle → Except String ToolResult × List UpCall :=
  fun _args o =>
    callGeth o "eth_blockNumber" [] (fun hex =>
      textResult (.obj [("blockNumberHex", hex),
                        ("blockNumberDecimal", jsonOfOptStr (hexToDecimalMaybe hex))]))

/-- mcpServer.js lines 122-125 (`getBalance`): `block` defaults to "latest". -/
def getBalance_handler : Json → Oracle → Except String ToolResult × List UpCall :=
  fun args o =>
    let address := getFieldD args "address"
    let block := (getField args "block").getD (.str "latest")
    callGeth o "eth_getBalance" [address, block] (fun hex =>
      textResult (.obj [("address", address), ("balanceHex", hex),
                        ("balanceWei", jsonOfOptStr (hexToDecimalMaybe hex))]))

/-- mcpServer.js lines 134-137 (`eth_getBalance`, duplicate of `getBalance`). -/
def eth_getBalance_handler : Json → Oracle → Except String ToolResult × List UpCall :=
  fun args o =>
    let address := getFieldD args "address"
    let block := (getField args "block").getD (.str "latest")
    callGeth o "eth_getBalance" [address, block] (fun hex =>
      textResult (.obj [("address", address), ("balanceHex", hex),
                        ("balanceWei", jsonOfOptStr (hexToDecimalMaybe hex))]))

/-- mcpServer.js lines 146-149 (`ethCallRaw`): generic passthrough. -/
def ethCallRaw_handler : Json → Oracle → Except String ToolResult × List UpCall :=
  fun args o =>
    let m := match getField args "method" with | some (.str s) => s | _ => ""
    let ps := match getField args "params" with | some (.arr l) => l | _ => []
    callGeth o m ps (fun result =>
      textResult (.obj [("method", .str m), ("params", .arr ps), ("result", result)]))

/-- mcpServer.js lines 158-161 (`eth_isSyncing`). -/
def eth_isSyncing_handler : Json → Oracle → Except String ToolResult × List UpCall :=
  fun _args o =>
    callGeth o "eth_syncing" [] (fun r => textResult (.obj [("syncing", r)]))

/-- mcpServer.js lines 344-347 (`isSyncing`, duplicate of `eth_isSyncing`). -/
def isSyncing_handler : Json → Oracle → Except String ToolResult × List UpCall :=
  fun _args o =>
    callGeth o "eth_syncing" [] (fun r => textResult (.obj [("syncing", r)]))

/-- mcpServer.js lines 170-173 (`eth_chainId`). -/
def eth_chainId_handler : Json → Oracle → Except String ToolResult × List UpCall :=
  fun _args o =>
    callGeth o "eth_chainId" [] (fun hex =>
      textResult (.obj [("chainIdHex", hex),
                        ("chainIdDecimal", jsonOfOptStr (hexToDecimalMaybe hex))]))

/-- mcpServer.js lines 320-323 (`chainId`, duplicate of `eth_chainId`). -/
def chainId_handler : Json → Oracle → Except String ToolResult × List UpCall :=
  fun _args o =>
    callGeth o "eth_chainId" [] (fun hex =>
      textResult (.obj [("chainIdHex", hex),
                        ("chainIdDecimal", jsonOfOptStr (hexToDecimalMaybe hex))]))

/-- mcpServer.js lines 182-185 (`eth_gasPrice`). -/
def eth_gasPrice_handler : Json → Oracle → Except String ToolResult × List UpCall :=
  fun _args o =>
    callGeth o "eth_gasPrice" [] (fun hex =>
      textResult (.obj [("gasPriceHex", hex),
                        ("gasPriceWei", jsonOfOptStr (hexToDecimalMaybe hex))]))

/-- mcpServer.js lines 332-335 (`gasPrice`, duplicate of `eth_gasPrice`). -/
def gasPrice_handler : Json → Oracle → Except String ToolResult × List UpCall :=
  fun _args o =>
    callGeth o "eth_gasPrice" [] (fun hex =>
      textResult (.obj [("gasPriceHex", hex),
                        ("gasPriceWei", jsonOfOptStr (hexToDecimalMaybe hex))]))

/-- mcpServer.js lines 194-197 (`eth_getBlockByNumber`): `full` defaults false. -/
def eth_getBlockByNumber_handler : Json → Oracle → Except String ToolResult × List UpCall :=
  fun args o =>
    let block := getFieldD args "block"
    let full := (getField args "full").getD (.bool false)
    callGeth o "eth_getBlockByNumber" [block, full] (fun r => textResult r)

/-- mcpServer.js lines 206-209 (`getBlockByNumber`, duplicate). -/
def getBlockByNumber_handler : Json → Oracle → Except String ToolResult × List UpCall :=
  fun args o =>
    let block := getFieldD args "block"
    let full := (getField args "full").getD (.bool false)
    callGeth o "eth_getBlockByNumber" [block, full] (fun r => textResult r)

/-- mcpServer.js lines 218-221 (`eth_getTransactionByHash`). -/
def eth_getTransactionByHash_handler : Json → Oracle → Except String ToolResult × List UpCall :=
  fun args o =>
    callGeth o "eth_getTransactionByHash" [getFieldD args "hash"] (fun r => textResult r)

/-- mcpServer.js lines 230-233 (`getTransactionByHash`, duplicate). -/
def getTransactionByHash_handler : Json → Oracle → Except String ToolResult × List UpCall :=
  fun args o =>
    callGeth o "eth_getTransactionByHash" [getFieldD args "hash"] (fun r => textResult r)

/-- mcpServer.js lines 242-245 (`eth_call`): `block` defaults "latest". -/
def eth_call_handler : Json → Oracle → Except String ToolResult × List UpCall :=
  fun args o =>
    let toA := getFieldD args "to"
    let dataA := getFieldD args "data"
    let block := (getField args "block").getD (.str "latest")
    callGeth o "eth_call" [.obj [("to", toA), ("data", dataA)], block] (fun r =>
      textResult (.obj [("result", r)]))

/-- mcpServer.js lines 254-257 (`call`, duplicate of `eth_call`). -/
def call_handler : Json → Oracle → Except String ToolResult × List UpCall :=
  fun args o =>
    let toA := getFieldD args "to"
    let dataA := getFieldD args "data"
    let block := (getField args "block").getD (.str "latest")
    callGeth o "eth_call" [.obj [("to", toA), ("data", dataA)], block] (fun r =>
      textResult (.obj [("result", r)]))

/-- mcpServer.js lines 266-269 (`eth_estimateGas`): forwards the whole parsed
    argument object as the single RPC parameter. -/
def eth_estimateGas_handler : Json → Oracle → Except String ToolResult × List UpCall :=
  fun args o =>
    callGeth o "eth_estimateGas" [args] (fun r =>
      textResult (.obj [("gasHex", r), ("gasDecimal", jsonOfOptStr (hexToDecimalMaybe r))]))

/-- mcpServer.js lines 278-281 (`estimateGas`, duplicate). -/
def estimateGas_handler : Json → Oracle → Except String ToolResult × List UpCall :=
  fun args o =>
    callGeth o "eth_estimateGas" [args] (fun r =>
      textResult (.obj [("gasHex", r), ("gasDecimal", jsonOfOptStr (hexToDecimalMaybe r))]))

/-- Truthiness of the `ALLOW_SEND_RAW_TX` environment value (`undefined` is
    `none`; any value read from the environment is a string, and JS string
    truthiness is non-emptiness — so "0" counts as enabled). -/
def allowSendRawTxEnabled : Option String → Bool
  | none => false
  | some s => s != ""

/-- The disabled-notice payload of the raw-transaction tools. -/
def sendRawDisabledResult : ToolResult :=
  textResult (.obj [("error", .str "Disabled. Set ALLOW_SEND_RAW_TX=1 to enable.")])

/-- mcpServer.js lines 290-296 (`eth_sendRawTransaction`): gated on the string
    truthiness of `process.env.ALLOW_SEND_RAW_TX`, read at invocation time. -/
def eth_sendRawTransaction_handler (env : Option String) :
    Json → Oracle → Except String ToolResult × List UpCall :=
  fun args o =>
    if !(allowSendRawTxEnabled env) then (.ok sendRawDisabledResult, [])
    else
      callGeth o "eth_sendRawTransaction" [getFieldD args "rawTx"] (fun h =>
        textResult (.obj [("txHash", h)]))

/-- mcpServer.js lines 305-311 (`sendRawTransaction`, duplicate). -/
def sendRawTransaction_handler (env : Option String) :
    Json → Oracle → Except String ToolResult × List UpCall :=
  fun args o =>
    if !(allowSendRawTxEnabled env) then (.ok sendRawDisabledResult, [])
    else
      callGeth o "eth_sendRawTransaction" [getFieldD args "rawTx"] (fun h =>
        textResult (.obj [("txHash", h)]))

/- ---------------------------------------------------------------------------
   Tool registry (mcpServer.js lines 24-40 and the registration sequence)
--------------------------------------------------------------------------- -/

/-- A registered tool: its zod argument validator and its handler. -/
structure ToolEntry where
  validator : Json → Except String Json
  handler : Json → Oracle → Except String ToolResult × List UpCall

/-- mcpServer.js lines 28-30, `normalizeToolName` on a string argument:
    `String(name || '')` (the identity on strings, spelled as the source does). -/
def normalizeToolNameS (s : String) : String := if s = "" then "" else s

/-- The registry's mutable state: `registeredToolNames` (push order) and the
    name-keyed handler map (later assignment shadows earlier, hence prepend). -/
structure RegistryState where
  names : List String
  entries : List (String × ToolEntry)

/-- mcpServer.js lines 31-40, `registerTool`: normalizes the name, pushes it,
    and stores the entry — unconditionally; there is no prefix check and no
    rejection path (the SDK double-registration is a side effect not modelled). -/
def registerToolM (r : RegistryState) (name : String) (entry : ToolEntry) : RegistryState :=
  ⟨r.names ++ [normalizeToolNameS name], (normalizeToolNameS name, entry) :: r.entries⟩

/-- The spec's canonical-name test: starts with `eth_`, `admin_`, `debug_`
    or `txpool_`. -/
def strStartsWith (p s : String) : Bool := p.data.isPrefixOf s.data

/-- Whether a tool name carries one of the four canonical prefixes. -/
def isCanonicalToolName (s : String) : Bool :=
  strStartsWith "eth_" s || strStartsWith "admin_" s ||
    strStartsWith "debug_" s || strStartsWith "txpool_" s

/-- Every name `registerTool` is called with, in source order (mcpServer.js
    lines 95-1198): the contents of `registeredToolNames` at startup's end. -/
def registeredToolNames : List String :=
  ["getBlockNumber", "eth_getBlockNumber", "getBalance", "eth_getBalance",
   "ethCallRaw", "eth_isSyncing", "eth_chainId", "eth_gasPrice",
   "eth_getBlockByNumber", "getBlockByNumber", "eth_getTransactionByHash",
   "getTransactionByHash", "eth_call", "call", "eth_estimateGas", "estimateGas",
   "eth_sendRawTransaction", "sendRawTransaction", "chainId", "gasPrice",
   "isSyncing", "admin_exportChain", "admin_importChain", "admin_nodeInfo",
   "admin_peers", "admin_removePeer", "admin_removeTrustedPeer",
   "admin_startHTTP", "admin_startWS", "admin_stopHTTP", "admin_stopWS",
   "debug_accountRange", "debug_backtraceAt", "debug_blockProfile",
   "debug_chaindbCompact", "debug_chaindbProperty", "debug_cpuProfile",
   "debug_dbAncient", "debug_dbAncients", "debug_dbGet", "debug_dumpBlock",
   "debug_freeOSMemory", "debug_freezeClient", "debug_gcStats",
   "debug_getAccessibleState", "debug_getBadBlocks", "debug_getRawBlock",
   "debug_getRawHeader", "debug_getRawTransaction",
   "debug_getModifiedAccountsByHash", "debug_getModifiedAccountsByNumber",
   "debug_getRawReceipts", "debug_goTrace", "debug_intermediateRoots",
   "debug_memStats", "debug_mutexProfile", "debug_preimage",
   "debug_printBlock", "debug_setBlockProfileRate", "debug_setGCPercent",
   "debug_setHead", "debug_setMutexProfileFraction",
   "debug_setTrieFlushInterval", "debug_stacks",
   "debug_standardTraceBlockToFile", "debug_standardTraceBadBlockToFile",
   "debug_startCPUProfile", "debug_startGoTrace", "debug_stopCPUProfile",
   "debug_stopGoTrace", "debug_storageRangeAt", "debug_traceBadBlock",
   "debug_traceBlock", "debug_traceBlockByNumber", "debug_traceBlockByHash",
   "debug_traceBlockFromFile", "debug_traceCall", "debug_traceTransaction",
   "debug_verbosity", "debug_vmodule", "debug_writeBlockProfile",
   "debug_writeMemProfile", "debug_writeMutexProfile", "eth_simulateV1",
   "eth_createAccessList", "eth_getHeaderByNumber", "eth_getHeaderByHash",
   "txpool_content", "txpool_contentFrom", "txpool_inspect", "txpool_status"]

/-- The handler map as built by the startup registrations, keyed by name, for
    the tools the claims exercise (mcpServer.js lines 95-349; the remaining
    admin/debug/txpool tools are single forwarding calls of the same shape whose
    handlers no claim touches). `env` is `process.env.ALLOW_SEND_RAW_TX`, read
    by the raw-transaction handlers at invocation time. -/
def registrations (env : Option String) : List (String × ToolEntry) :=
  [("getBlockNumber", ⟨vEmptyObj, getBlockNumber_handler⟩),
   ("eth_getBlockNumber", ⟨vEmptyObj, eth_getBlockNumber_handler⟩),
   ("getBalance", ⟨vAddressBlock, getBalance_handler⟩),
   ("eth_getBalance", ⟨vAddressBlock, eth_getBalance_handler⟩),
   ("ethCallRaw", ⟨vEthCallRaw, ethCallRaw_handler⟩),
   ("eth_isSyncing", ⟨vEmptyObj, eth_isSyncing_handler⟩),
   ("eth_chainId", ⟨vEmptyObj, eth_chainId_handler⟩),
   ("eth_gasPrice", ⟨vEmptyObj, eth_gasPrice_handler⟩),
   ("eth_getBlockByNumber", ⟨vBlockFull, eth_getBlockByNumber_handler⟩),
   ("getBlockByNumber", ⟨vBlockFull, getBlockByNumber_handler⟩),
   ("eth_getTransactionByHash", ⟨vHash, eth_getTransactionByHash_handler⟩),
   ("getTransactionByHash", ⟨vHash, getTransactionByHash_handler⟩),
   ("eth_call", ⟨vToDataBlock, eth_call_handler⟩),
   ("call", ⟨vToDataBlock, call_handler⟩),
   ("eth_estimateGas", ⟨vTxFields, eth_estimateGas_handler⟩),
   ("estimateGas", ⟨vTxFields, estimateGas_handler⟩),
   ("eth_sendRawTransaction", ⟨vRawTx, eth_sendRawTransaction_handler env⟩),
   ("sendRawTransaction", ⟨vRawTx, sendRawTransaction_handler env⟩),
   ("chainId", ⟨vEmptyObj, chainId_handler⟩),
   ("gasPrice", ⟨vEmptyObj, gasPrice_handler⟩),
   ("isSyncing", ⟨vEmptyObj, isSyncing_handler⟩)]

/-- `registeredToolHandlers[name]` (mcpServer.js line 38 / 1248). -/
def modeledHandlers (env : Option String) (name : String) : Option ToolEntry :=
  ((registrations env).find? (fun p => p.1 == name)).map (fun p => p.2)

/-- A JSON-Schema document `{type:'object', properties, required?, additionalProperties:false}`
    as the source writes them per tool. -/
def schemaObj (props : List (String × Json)) (required : List String) : Json :=
  .obj ([("type", .str "object"), ("properties", .obj props)] ++
        (if required.isEmpty then [] else [("required", .arr (required.map Json.str))]) ++
        [("additionalProperties", .bool false)])

/-- `{ type: t }`: one property of a discovery schema. -/
def sProp (t : String) : Json := .obj [("type", .str t)]

/-- `registeredToolSchemas` (mcpServer.js line 37): name to
    (description, discovery JSON schema), for the modelled tools. -/
def registeredToolSchemas : List (String × String × Json) :=
  [("getBlockNumber", "Retrieve the current block number (hex + decimal).",
    schemaObj [] []),
   ("eth_getBlockNumber", "Alias of getBlockNumber.", schemaObj [] []),
   ("getBalance", "Get balance of an address (hex + decimal).",
    schemaObj [("address", sProp "string"), ("block", sProp "string")] ["address"]),
   ("eth_getBalance", "Alias of getBalance.",
    schemaObj [("address", sProp "string"), ("block", sProp "string")] ["address"]),
   ("ethCallRaw", "Call any Ethereum JSON-RPC method with params array.",
    schemaObj [("method", sProp "string"), ("params", sProp "array")] ["method"]),
   ("eth_isSyncing", "Check if the node is syncing.", schemaObj [] []),
   ("eth_chainId", "Get current chain ID (hex + decimal).", schemaObj [] []),
   ("eth_gasPrice", "Get current gas price (hex + wei decimal).", schemaObj [] []),
   ("eth_getBlockByNumber", "Fetch block by number/tag.",
    schemaObj [("block", sProp "string"), ("full", sProp "boolean")] ["block"]),
   ("getBlockByNumber", "Fetch block by number/tag (alias of eth_getBlockByNumber).",
    schemaObj [("block", sProp "string"), ("full", sProp "boolean")] ["block"]),
   ("eth_getTransactionByHash", "Fetch a transaction by hash.",
    schemaObj [("hash", sProp "string")] ["hash"]),
   ("getTransactionByHash", "Fetch a transaction by hash (alias of eth_getTransactionByHash).",
    schemaObj [("hash", sProp "string")] ["hash"]),
   ("eth_call", "Execute a call without a transaction.",
    schemaObj [("to", sProp "string"), ("data", sProp "string"), ("block", sProp "string")]
      ["to", "data"]),
   ("call", "Execute a call without a transaction (alias of eth_call).",
    schemaObj [("to", sProp "string"), ("data", sProp "string"), ("block", sProp "string")]
      ["to", "data"]),
   ("eth_estimateGas", "Estimate gas for a transaction.",
    schemaObj [("to", sProp "string"), ("from", sProp "string"), ("data", sProp "string"),
               ("value", sProp "string")] []),
   ("estimateGas", "Estimate gas for a transaction (alias of eth_estimateGas).",
    schemaObj [("to", sProp "string"), ("from", sProp "string"), ("data", sProp "string"),
               ("value", sProp "string")] []),
   ("eth_sendRawTransaction",
    "Broadcast a signed raw transaction (hex). WARNING: ensure the tx is trusted.",
    schemaObj [("rawTx", sProp "string")] ["rawTx"]),
   ("sendRawTransaction",
    "Broadcast a signed raw transaction (alias of eth_sendRawTransaction).",
    schemaObj [("rawTx", sProp "string")] ["rawTx"]),
   ("chainId", "Get current chain ID (alias of eth_chainId).", schemaObj [] []),
   ("gasPrice", "Get current gas price (alias of eth_gasPrice).", schemaObj [] []),
   ("isSyncing", "Check if the node is syncing (alias of eth_isSyncing).", schemaObj [] [])]

/-- `registeredToolSchemas[name]?`. -/
def schemaLookup (name : String) : Option (String × Json) :=
  (registeredToolSchemas.find? (fun p => p.1 == name)).map (fun p => p.2)

/-- One element of the `tools/list` response: `{name, description?, inputSchema?}`
    (mcpServer.js line 1236; `undefined` fields are dropped on serialization). -/
structure ToolListing where
  name : String
  description : Option String
  inputSchema : Option Json

/-- The `tools/list` listing: every registered name, mapped over the schema map. -/
def toolsListing : List ToolListing :=
  registeredToolNames.map (fun n =>
    ⟨n, (schemaLookup n).map (fun p => p.1), (schemaLookup n).map (fun p => p.2)⟩)

/-- Serialize one listing entry, dropping `undefined` fields. -/
def toolListingJson (t : ToolListing) : Json :=
  .obj ([("name", .str t.name)] ++
        (match t.description with | some d => [("description", .str d)] | none => []) ++
        (match t.inputSchema with | some s => [("inputSchema", s)] | none => []))

/-- The `tools` array of the `tools/list` result. -/
def toolsListJson : Json := .arr (toolsListing.map toolListingJson)

/-- The fixed `initialize` result document (mcpServer.js lines 1223-1231). -/
def initializeResult : Json :=
  .obj [("protocolVersion", .str "2025-06-18"),
        ("serverInfo", .obj [("name", .str "geth-mcp-proxy"), ("version", .str "1.1.0")]),
        ("capabilities",
         .obj [("tools", .obj (registeredToolSchemas.map (fun p =>
                 (p.1, Json.obj [("inputSchema", p.2.2), ("description", .str p.2.1)])))),
               ("roots", .obj [("listChanged", .bool false)])])]

/- ---------------------------------------------------------------------------
   Invocation dispatcher: `mcpHandler` (mcpServer.js lines 1211-1277)
--------------------------------------------------------------------------- -/

/-- A JSON-RPC response body: a result or an error (code, message). -/
inductive RpcBody where
  | result (r : Json)
  | error (code : Int) (message : String)

/-- One HTTP response: status, the JSON-RPC `id` echoed (`none` when the source
    leaves it `undefined`, dropped on serialization), and the body. -/
structure HttpResponse where
  status : Nat
  id : Option Json
  body : RpcBody

/-- What one `POST /mcp` request leads to: a response written by the dispatcher
    itself together with the upstream calls made while producing it; a hand-off
    of the payload to the SDK streaming transport (mcpServer.js lines 1265-1274,
    the branch for every unrecognized method — the transport, not this code,
    then decides what if anything is written); or a TypeError escaping the
    body-end callback (destructuring a null payload, line 1220). -/
inductive McpOutcome where
  | response (resp : HttpResponse) (upstreamCalls : List UpCall)
  | fallbackTransport (payload : Json)
  | uncaughtError (message : String)

/-- Serialize a tool result into the `result` field of the response. -/
def toolResultJson (tr : ToolResult) : Json :=
  .obj [("content", .arr (tr.content.map (fun b =>
    Json.obj [("type", .str b.kind), ("text", b.text)])))]

/-- `err?.message || 'Tool execution error'` (mcpServer.js line 1260). -/
def orDefaultMsg (e : String) : String := if e = "" then "Tool execution error" else e

/-- `normalizeToolName(name)` = `String(name || '')` on the raw JSON value of
    `params.name` (`none` = `undefined`). -/
def normalizeToolNameJ (o : Option Json) : String :=
  match o with
  | none => ""
  | some v => if jsTruthy v then jsToString v else ""

/-- mcpServer.js lines 1211-1277, `mcpHandler`, over one request: `body` is the
    buffered request body, `parsed` its JSON.parse outcome (`none` = parse threw;
    only consulted when the body is non-empty, as in the source). -/
def mcpHandler (reg : String → Option ToolEntry) (oracle : Oracle)
    (body : String) (parsed : Option Json) : McpOutcome :=
  if body = "" then
    .response ⟨400, some .null, .error (-32600) "Empty request body"⟩ []
  else
    match parsed with
    | none => .response ⟨400, some .null, .error (-32700) "Parse error"⟩ []
    | some .null => .uncaughtError "Cannot destructure property of null"
    | some payload =>
      let id := getField payload "id"
      match getField payload "method" with
      | some (.str "initialize") => .response ⟨200, id, .result initializeResult⟩ []
      | some (.str "tools/list") =>
        .response ⟨200, id, .result (.obj [("tools", toolsListJson)])⟩ []
      | some (.str "tools/call") =>
        match getField payload "params" with
        | none => .response ⟨400, id, .error (-32602) "Missing params"⟩ []
        | some p =>
          match p with
          | .obj _ | .arr _ =>
            let nameJ := getField p "name"
            let args := (getField p "arguments").getD (.obj [])
            let safeName := normalizeToolNameJ nameJ
            match (if safeName = "" then none else reg safeName) with
            | none =>
              .response ⟨404, id, .error (-32601) ("Unknown tool: " ++ jsTemplate nameJ)⟩ []
            | some entry =>
              match entry.validator args with
              | .error e => .response ⟨500, id, .error (-32000) (orDefaultMsg e)⟩ []
              | .ok parsedArgs =>
                match entry.handler parsedArgs oracle with
                | (.ok tr, calls) => .response ⟨200, id, .result (toolResultJson tr)⟩ calls
                | (.error e, calls) =>
                  .response ⟨500, id, .error (-32000) (orDefaultMsg e)⟩ calls
          | _ => .response ⟨400, id, .error (-32602) "Missing params"⟩ []
      | _ => .fallbackTransport payload

/-- A well-formed `tools/call` request envelope. -/
def toolsCallPayload (id : Json) (name : String) (args : Json) : Json :=
  .obj [("jsonrpc", .str "2.0"), ("id", id), ("method", .str "tools/call"),
        ("params", .obj [("name", .str name), ("arguments", args)])]

/-- A stub upstream returning `"0x10"` for every call. -/
def stubOracle : Oracle := fun _ _ => .ok (.str "0x10")

/-- The upstream calls an outcome carried (none for a transport hand-off). -/
def outcomeCalls : McpOutcome → List UpCall
  | .response _ calls => calls
  | _ => []

/-- Whether an outcome is an HTTP 200 response whose body is a JSON-RPC error
    with code -32601 (what the spec asserts for unrecognized methods). -/
def respondsOkMethodNotFound : McpOutcome → Bool
  | .response r _ =>
    r.status == 200 && (match r.body with | .error c _ => c == (-32601 : Int) | _ => false)
  | _ => false

/- ---------------------------------------------------------------------------
   Dispatcher lemmas
--------------------------------------------------------------------------- -/

/-- `String(name || '')` is the name itself for a non-empty string name. -/
theorem normalizeToolNameJ_str (name : String) (hn : name ≠ "") :
    normalizeToolNameJ (some (.str name)) = name := by
  simp [normalizeToolNameJ, jsTruthy, jsToString, hn]

/-- Reduction of the dispatcher on a well-formed `tools/call` envelope whose
    tool name resolves: validate, then invoke, sharing one error channel. -/
theorem mcpHandler_toolsCall (reg : String → Option ToolEntry) (oracle : Oracle)
    (body : String) (id args : Json) (name : String) (entry : ToolEntry)
    (hb : body ≠ "") (hn : name ≠ "") (hreg : reg name = some entry) :
    mcpHandler reg oracle body (some (toolsCallPayload id name args)) =
      (match entry.validator args with
       | .error e => .response ⟨500, some id, .error (-32000) (orDefaultMsg e)⟩ []
       | .ok pa =>
         match entry.handler pa oracle with
         | (.ok tr, calls) => .response ⟨200, some id, .result (toolResultJson tr)⟩ calls
         | (.error e, calls) =>
           .response ⟨500, some id, .error (-32000) (orDefaultMsg e)⟩ calls) := by
  unfold mcpHandler toolsCallPayload
  rw [if_neg hb]
  simp [getField, lookupField, normalizeToolNameJ_str name hn, hn, hreg]

/- ---------------------------------------------------------------------------
   Claim theorems
--------------------------------------------------------------------------- -/

/-- C9: an empty POST /mcp body yields a terminal HTTP 400 with JSON-RPC code
    -32600 and id null; a non-empty body whose JSON.parse fails yields a
    terminal HTTP 400 with code -32700 and id null. -/
theorem mcpHandler_body_errors (reg : String → Option ToolEntry)
    (oracle : Oracle) (parsed : Option Json) (body : String) (hb : body ≠ "") :
    mcpHandler reg oracle "" parsed =
      .response ⟨400, some .null, .error (-32600) "Empty request body"⟩ [] ∧
    mcpHandler reg oracle body none =
      .response ⟨400, some .null, .error (-32700) "Parse error"⟩ [] := by
  constructor
  · rfl
  · unfold mcpHandler
    rw [if_neg hb]

/-- C9 witness: both branches at concrete inputs. -/
theorem mcpHandler_body_errors_witness :
    ("x" : String) ≠ "" ∧
    mcpHandler (modeledHandlers none) stubOracle "" none =
      .response ⟨400, some .null, .error (-32600) "Empty request body"⟩ [] ∧
    mcpHandler (modeledHandlers none) stubOracle "x" none =
      .response ⟨400, some .null, .error (-32700) "Parse error"⟩ [] :=
  ⟨by decide,
   (mcpHandler_body_errors (modeledHandlers none) stubOracle none "x" (by decide)).1,
   (mcpHandler_body_errors (modeledHandlers none) stubOracle none "x" (by decide)).2⟩

/-- C3: a `tools/call` on a registered tool whose arguments fail the tool's
    zod schema yields HTTP 500 with JSON-RPC code -32000 and the validator's
    error text as message; the handler is never invoked (the outcome is the
    same for every `entry.handler`) and the upstream call list is empty. -/
theorem toolsCall_validation_blocks_invocation (reg : String → Option ToolEntry)
    (oracle : Oracle) (body : String) (id args : Json) (name : String)
    (entry : ToolEntry) (e : String) (hb : body ≠ "") (hn : name ≠ "")
    (hreg : reg name = some entry) (hv : entry.validator args = .error e)
    (he : e ≠ "") :
    mcpHandler reg oracle body (some (toolsCallPayload id name args)) =
      .response ⟨500, some id, .error (-32000) e⟩ [] := by
  rw [mcpHandler_toolsCall reg oracle body id args name entry hb hn hreg, hv]
  simp [orDefaultMsg, he]

/-- C3 witness: `eth_getBalance` with `arguments: {}` (missing the required
    `address`) is rejected by validation with no upstream call. -/
theorem toolsCall_validation_blocks_invocation_witness :
    modeledHandlers none "eth_getBalance" = some ⟨vAddressBlock, eth_getBalance_handler⟩ ∧
    vAddressBlock (.obj []) = .error "address: Required" ∧
    mcpHandler (modeledHandlers none) stubOracle "x"
        (some (toolsCallPayload (.num 7) "eth_getBalance" (.obj []))) =
      .response ⟨500, some (.num 7), .error (-32000) "address: Required"⟩ [] :=
  ⟨rfl, rfl,
   toolsCall_validation_blocks_invocation (modeledHandlers none) stubOracle "x"
     (.num 7) (.obj []) "eth_getBalance" ⟨vAddressBlock, eth_getBalance_handler⟩
     "address: Required" (by decide) (by decide) rfl rfl (by decide)⟩

/-- C10: `tools/call` on `eth_getBalance` or its alias `getBalance` with an
    `address` argument and no `block` argument forwards exactly one upstream
    call, `eth_getBalance` with params `[address, "latest"]`. -/
theorem getBalance_defaults_block_latest (env : Option String) (oracle : Oracle)
    (id : Json) (a : String) (name : String)
    (hname : name = "eth_getBalance" ∨ name = "getBalance") :
    outcomeCalls (mcpHandler (modeledHandlers env) oracle "x"
        (some (toolsCallPayload id name (.obj [("address", .str a)])))) =
      [("eth_getBalance", [.str a, .str "latest"])] := by
  rcases hname with rfl | rfl
  · rw [mcpHandler_toolsCall (modeledHandlers env) oracle "x" id
          (.obj [("address", .str a)]) "eth_getBalance"
          ⟨vAddressBlock, eth_getBalance_handler⟩ (by decide) (by decide) rfl]
    cases h : oracle "eth_getBalance" [Json.str a, Json.str "latest"] <;>
      simp [vAddressBlock, getField, lookupField, eth_getBalance_handler,
            callGeth, getFieldD, outcomeCalls, h]
  · rw [mcpHandler_toolsCall (modeledHandlers env) oracle "x" id
          (.obj [("address", .str a)]) "getBalance"
          ⟨vAddressBlock, getBalance_handler⟩ (by decide) (by decide) rfl]
    cases h : oracle "eth_getBalance" [Json.str a, Json.str "latest"] <;>
      simp [vAddressBlock, getField, lookupField, getBalance_handler,
            callGeth, getFieldD, outcomeCalls, h]

/-- C10 witness: concrete address, both names. -/
theorem getBalance_defaults_block_latest_witness :
    outcomeCalls (mcpHandler (modeledHandlers none) stubOracle "x"
        (some (toolsCallPayload (.num 1) "eth_getBalance" (.obj [("address", .str "0xabc")])))) =
      [("eth_getBalance", [.str "0xabc", .str "latest"])] ∧
    outcomeCalls (mcpHandler (modeledHandlers none) stubOracle "x"
        (some (toolsCallPayload (.num 1) "getBalance" (.obj [("address", .str "0xabc")])))) =
      [("eth_getBalance", [.str "0xabc", .str "latest"])] :=
  ⟨getBalance_defaults_block_latest none stubOracle (.num 1) "0xabc" _ (Or.inl rfl),
   getBalance_defaults_block_latest none stubOracle (.num 1) "0xabc" _ (Or.inr rfl)⟩

/-- C5: with the broadcast flag disabled (unset or empty `ALLOW_SEND_RAW_TX`),
    `tools/call` on `eth_sendRawTransaction` or its alias `sendRawTransaction`
    with any `rawTx` string returns a success envelope (HTTP 200, `result`)
    whose payload is the disabled notice, and issues zero upstream calls. -/
theorem sendRawTransaction_disabled_notice (env : Option String)
    (henv : allowSendRawTxEnabled env = false) (oracle : Oracle) (id : Json)
    (s : String) (name : String)
    (hname : name = "eth_sendRawTransaction" ∨ name = "sendRawTransaction") :
    mcpHandler (modeledHandlers env) oracle "x"
        (some (toolsCallPayload id name (.obj [("rawTx", .str s)]))) =
      .response ⟨200, some id, .result (toolResultJson sendRawDisabledResult)⟩ [] := by
  rcases hname with rfl | rfl
  · rw [mcpHandler_toolsCall (modeledHandlers env) oracle "x" id
          (.obj [("rawTx", .str s)]) "eth_sendRawTransaction"
          ⟨vRawTx, eth_sendRawTransaction_handler env⟩ (by decide) (by decide) rfl]
    simp [vRawTx, getField, lookupField, eth_sendRawTransaction_handler, henv]
  · rw [mcpHandler_toolsCall (modeledHandlers env) oracle "x" id
          (.obj [("rawTx", .str s)]) "sendRawTransaction"
          ⟨vRawTx, sendRawTransaction_handler env⟩ (by decide) (by decide) rfl]
    simp [vRawTx, getField, lookupField, sendRawTransaction_handler, henv]

/-- C5 witness: both tool names at a concrete raw transaction, flag unset. -/
theorem sendRawTransaction_disabled_notice_witness :
    allowSendRawTxEnabled none = false ∧
    mcpHandler (modeledHandlers none) stubOracle "x"
        (some (toolsCallPayload (.num 2) "eth_sendRawTransaction"
          (.obj [("rawTx", .str "0xdead")]))) =
      .response ⟨200, some (.num 2), .result (toolResultJson sendRawDisabledResult)⟩ [] ∧
    mcpHandler (modeledHandlers none) stubOracle "x"
        (some (toolsCallPayload (.num 2) "sendRawTransaction"
          (.obj [("rawTx", .str "0xdead")]))) =
      .response ⟨200, some (.num 2), .result (toolResultJson sendRawDisabledResult)⟩ [] :=
  ⟨rfl,
   sendRawTransaction_disabled_notice none rfl stubOracle (.num 2) "0xdead" _ (Or.inl rfl),
   sendRawTransaction_disabled_notice none rfl stubOracle (.num 2) "0xdead" _ (Or.inr rfl)⟩

/-- C6: the raw-transaction gate tests only string truthiness of the
    `ALLOW_SEND_RAW_TX` value: any non-empty value (including "0") makes both
    handlers forward one `eth_sendRawTransaction` upstream call, while an unset
    or empty value makes both return the disabled notice with no calls. -/
theorem sendRawTransaction_env_truthiness :
    (∀ (s : String), s ≠ "" → ∀ (args : Json) (o : Oracle),
      (eth_sendRawTransaction_handler (some s) args o).2 =
          [("eth_sendRawTransaction", [getFieldD args "rawTx"])] ∧
      (sendRawTransaction_handler (some s) args o).2 =
          [("eth_sendRawTransaction", [getFieldD args "rawTx"])]) ∧
    (∀ (args : Json) (o : Oracle),
      eth_sendRawTransaction_handler none args o = (.ok sendRawDisabledResult, []) ∧
      sendRawTransaction_handler none args o = (.ok sendRawDisabledResult, []) ∧
      eth_sendRawTransaction_handler (some "") args o = (.ok sendRawDisabledResult, []) ∧
      sendRawTransaction_handler (some "") args o = (.ok sendRawDisabledResult, [])) := by
  constructor
  · intro s hs args o
    constructor <;>
      simp [eth_sendRawTransaction_handler, sendRawTransaction_handler,
            allowSendRawTxEnabled, callGeth, hs]
  · intro args o
    refine ⟨rfl, rfl, rfl, rfl⟩

/-- C6 witness: the value "0" (falsy as a number, truthy as a string) forwards. -/
theorem sendRawTransaction_env_truthiness_witness :
    ("0" : String) ≠ "" ∧
    (eth_sendRawTransaction_handler (some "0")
        (.obj [("rawTx", .str "0xdead")]) stubOracle).2 =
      [("eth_sendRawTransaction", [.str "0xdead"])] ∧
    (sendRawTransaction_handler (some "0")
        (.obj [("rawTx", .str "0xdead")]) stubOracle).2 =
      [("eth_sendRawTransaction", [.str "0xdead"])] ∧
    eth_sendRawTransaction_handler none (.obj [("rawTx", .str "0xdead")]) stubOracle =
      (.ok sendRawDisabledResult, []) := by
  have h1 := sendRawTransaction_env_truthiness.1 "0" (by decide)
    (.obj [("rawTx", .str "0xdead")]) stubOracle
  have h2 := (sendRawTransaction_env_truthiness.2
    (.obj [("rawTx", .str "0xdead")]) stubOracle).1
  exact ⟨by decide, h1.1, h1.2, h2⟩

/-- The alias/target pairs registered by the source (alias name first). -/
def aliasPairs : List (String × String) :=
  [("getBlockNumber", "eth_getBlockNumber"), ("getBalance", "eth_getBalance"),
   ("getBlockByNumber", "eth_getBlockByNumber"),
   ("getTransactionByHash", "eth_getTransactionByHash"),
   ("call", "eth_call"), ("estimateGas", "eth_estimateGas"),
   ("sendRawTransaction", "eth_sendRawTransaction"),
   ("chainId", "eth_chainId"), ("gasPrice", "eth_gasPrice"),
   ("isSyncing", "eth_isSyncing")]

/-- C4: for every registered alias/target pair, a `tools/call` on the alias and
    one on the target with the same arguments produce identical outcomes — same
    upstream method and params and same response payload — for every upstream
    oracle and environment. -/
theorem alias_target_equivalent (pr : String × String) (hpr : pr ∈ aliasPairs)
    (env : Option String) (oracle : Oracle) (id args : Json) :
    mcpHandler (modeledHandlers env) oracle "x" (some (toolsCallPayload id pr.1 args)) =
      mcpHandler (modeledHandlers env) oracle "x" (some (toolsCallPayload id pr.2 args)) := by
  fin_cases hpr
  · rw [mcpHandler_toolsCall (modeledHandlers env) oracle "x" id args "getBlockNumber"
          ⟨vEmptyObj, getBlockNumber_handler⟩ (by decide) (by decide) rfl,
        mcpHandler_toolsCall (modeledHandlers env) oracle "x" id args "eth_getBlockNumber"
          ⟨vEmptyObj, eth_getBlockNumber_handler⟩ (by decide) (by decide) rfl]
    exact rfl
  · rw [mcpHandler_toolsCall (modeledHandlers env) oracle "x" id args "getBalance"
          ⟨vAddressBlock, getBalance_handler⟩ (by decide) (by decide) rfl,
        mcpHandler_toolsCall (modeledHandlers env) oracle "x" id args "eth_getBalance"
          ⟨vAddressBlock, eth_getBalance_handler⟩ (by decide) (by decide) rfl]
    exact rfl
  · rw [mcpHandler_toolsCall (modeledHandlers env) oracle "x" id args "getBlockByNumber"
          ⟨vBlockFull, getBlockByNumber_handler⟩ (by decide) (by decide) rfl,
        mcpHandler_toolsCall (modeledHandlers env) oracle "x" id args "eth_getBlockByNumber"
          ⟨vBlockFull, eth_getBlockByNumber_handler⟩ (by decide) (by decide) rfl]
    exact rfl
  · rw [mcpHandler_toolsCall (modeledHandlers env) oracle "x" id args "getTransactionByHash"
          ⟨vHash, getTransactionByHash_handler⟩ (by decide) (by decide) rfl,
        mcpHandler_toolsCall (modeledHandlers env) oracle "x" id args "eth_getTransactionByHash"
          ⟨vHash, eth_getTransactionByHash_handler⟩ (by decide) (by decide) rfl]
    exact rfl
  · rw [mcpHandler_toolsCall (modeledHandlers env) oracle "x" id args "call"
          ⟨vToDataBlock, call_handler⟩ (by decide) (by decide) rfl,
        mcpHandler_toolsCall (modeledHandlers env) oracle "x" id args "eth_call"
          ⟨vToDataBlock, eth_call_handler⟩ (by decide) (by decide) rfl]
    exact rfl
  · rw [mcpHandler_toolsCall (modeledHandlers env) oracle "x" id args "estimateGas"
          ⟨vTxFields, estimateGas_handler⟩ (by decide) (by decide) rfl,
        mcpHandler_toolsCall (modeledHandlers env) oracle "x" id args "eth_estimateGas"
          ⟨vTxFields, eth_estimateGas_handler⟩ (by decide) (by decide) rfl]
    exact rfl
  · rw [mcpHandler_toolsCall (modeledHandlers env) oracle "x" id args "sendRawTransaction"
          ⟨vRawTx, sendRawTransaction_handler env⟩ (by decide) (by decide) rfl,
        mcpHandler_toolsCall (modeledHandlers env) oracle "x" id args "eth_sendRawTransaction"
          ⟨vRawTx, eth_sendRawTransaction_handler env⟩ (by decide) (by decide) rfl]
    exact rfl
  · rw [mcpHandler_toolsCall (modeledHandlers env) oracle "x" id args "chainId"
          ⟨vEmptyObj, chainId_handler⟩ (by decide) (by decide) rfl,
        mcpHandler_toolsCall (modeledHandlers env) oracle "x" id args "eth_chainId"
          ⟨vEmptyObj, eth_chainId_handler⟩ (by decide) (by decide) rfl]
    exact rfl
  · rw [mcpHandler_toolsCall (modeledHandlers env) oracle "x" id args "gasPrice"
          ⟨vEmptyObj, gasPrice_handler⟩ (by decide) (by decide) rfl,
        mcpHandler_toolsCall (modeledHandlers env) oracle "x" id args "eth_gasPrice"
          ⟨vEmptyObj, eth_gasPrice_handler⟩ (by decide) (by decide) rfl]
    exact rfl
  · rw [mcpHandler_toolsCall (modeledHandlers env) oracle "x" id args "isSyncing"
          ⟨vEmptyObj, isSyncing_handler⟩ (by decide) (by decide) rfl,
        mcpHandler_toolsCall (modeledHandlers env) oracle "x" id args "eth_isSyncing"
          ⟨vEmptyObj, eth_isSyncing_handler⟩ (by decide) (by decide) rfl]
    exact rfl

/-- C4 witness: the `getBlockNumber`/`eth_getBlockNumber` pair at a concrete
    request against the stub upstream. -/
theorem alias_target_equivalent_witness :
    (("getBlockNumber", "eth_getBlockNumber") ∈ aliasPairs) ∧
    mcpHandler (modeledHandlers none) stubOracle "x"
        (some (toolsCallPayload (.num 1) "getBlockNumber" (.obj []))) =
      mcpHandler (modeledHandlers none) stubOracle "x"
        (some (toolsCallPayload (.num 1) "eth_getBlockNumber" (.obj []))) :=
  ⟨by decide,
   alias_target_equivalent ("getBlockNumber", "eth_getBlockNumber") (by decide)
     none stubOracle (.num 1) (.obj [])⟩

/-- A probe request with an unrecognized method. -/
def bogusPayload : Json :=
  .obj [("jsonrpc", .str "2.0"), ("id", .num 1), ("method", .str "bogus")]

/-- C2 (amended): a parsed envelope whose method is none of `initialize`,
    `tools/list`, `tools/call` is not answered by the dispatcher at all: it is
    handed to the SDK streaming transport (mcpServer.js lines 1265-1274); the
    dispatcher issues no JSON-RPC -32601 response there. -/
theorem unrecognized_method_falls_back (reg : String → Option ToolEntry)
    (oracle : Oracle) (body : String) (payload : Json) (hb : body ≠ "")
    (hnull : payload ≠ .null)
    (h1 : getField payload "method" ≠ some (.str "initialize"))
    (h2 : getField payload "method" ≠ some (.str "tools/list"))
    (h3 : getField payload "method" ≠ some (.str "tools/call")) :
    mcpHandler reg oracle body (some payload) = .fallbackTransport payload := by
  unfold mcpHandler
  rw [if_neg hb]
  cases payload with
  | null => exact absurd rfl hnull
  | bool b =>
    simp only [getField] at h1 h2 h3 ⊢
  | num n =>
    simp only [getField] at h1 h2 h3 ⊢
  | str s =>
    simp only [getField] at h1 h2 h3 ⊢
  | arr es =>
    simp only [getField] at h1 h2 h3 ⊢
  | obj fs =>
    simp only [getField] at h1 h2 h3 ⊢

/-- C2 witness: a notification-shaped probe is handed to the transport. -/
theorem unrecognized_method_falls_back_witness :
    mcpHandler (modeledHandlers none) stubOracle "x" (some bogusPayload) =
      .fallbackTransport bogusPayload :=
  unrecognized_method_falls_back (modeledHandlers none) stubOracle "x" bogusPayload
    (by decide) (by simp [bogusPayload])
    (by simp [bogusPayload, getField, lookupField])
    (by simp [bogusPayload, getField, lookupField])
    (by simp [bogusPayload, getField, lookupField])

/-- C2 counterexample to the claim as stated: the well-formed envelope
    `{jsonrpc:"2.0", id:1, method:"bogus"}` does not get an HTTP 200 response
    carrying JSON-RPC error -32601 from the dispatcher — it gets no dispatcher
    response, only the transport hand-off. -/
theorem unrecognized_method_counterexample :
    mcpHandler (modeledHandlers none) stubOracle "x" (some bogusPayload) =
      .fallbackTransport bogusPayload ∧
    respondsOkMethodNotFound
        (mcpHandler (modeledHandlers none) stubOracle "x" (some bogusPayload)) = false :=
  ⟨rfl, rfl⟩

/-- C1 (amended): `registerTool` applies no prefix policy — every registration
    appends its (normalized, i.e. unchanged) name to `registeredToolNames`
    unconditionally — and `tools/list` lists exactly the registered names, so
    non-canonical names such as `getBlockNumber` are registered and listed. -/
theorem registerTool_accepts_all_names :
    (∀ (r : RegistryState) (n : String) (e : ToolEntry),
        (registerToolM r n e).names = r.names ++ [n]) ∧
    "getBlockNumber" ∈ registeredToolNames ∧
    isCanonicalToolName "getBlockNumber" = false ∧
    toolsListing.map ToolListing.name = registeredToolNames := by
  refine ⟨?_, by decide, by decide, ?_⟩
  · intro r n e
    unfold registerToolM normalizeToolNameS
    by_cases h : n = "" <;> simp [h]
  · unfold toolsListing
    rw [List.map_map]
    exact List.map_id' registeredToolNames

/-- C1 counterexample to the claim as stated: `getBlockNumber` carries none of
    the four canonical prefixes yet appears in the `tools/list` names, so not
    every listed name matches a canonical prefix. -/
theorem prefix_policy_counterexample :
    "getBlockNumber" ∈ toolsListing.map ToolListing.name ∧
    isCanonicalToolName "getBlockNumber" = false ∧
    (toolsListing.map ToolListing.name).all isCanonicalToolName = false :=
  ⟨by decide, by decide, by decide⟩

/-- C8 (amended): every `queryGeth` invocation with a configured endpoint issues
    exactly one POST whose body is `{jsonrpc:'2.0', method, params, id: now}`;
    it fails on timeout with the fixed message, on a non-2xx HTTP status with a
    message carrying status and text, and on a decoded body whose `error` field
    is present AND truthy (not merely present) with the upstream message;
    otherwise it returns the body's `result` field. -/
theorem queryGeth_contract (u : String) (now : Int) (m : String) (ps : List Json) :
    (∀ outcome, (queryGeth (some u) now m ps outcome).2 =
        [⟨stripTrailingSlash u, queryGethRequestBody m ps now⟩]) ∧
    (queryGeth (some u) now m ps .timeout).1 = .error "Upstream request timed out" ∧
    (∀ status statusText body, status < 200 ∨ 299 < status →
        (queryGeth (some u) now m ps (.resp status statusText body)).1 =
          .error ("Upstream HTTP " ++ toString status ++ " " ++ statusText)) ∧
    (∀ status statusText body errJ, 200 ≤ status → status ≤ 299 →
        getField body "error" = some errJ → jsTruthy errJ = true →
        (queryGeth (some u) now m ps (.resp status statusText body)).1 =
          .error ("Geth error: " ++ jsTemplate (getField errJ "message"))) ∧
    (∀ status statusText body, 200 ≤ status → status ≤ 299 →
        (∀ errJ, getField body "error" = some errJ → jsTruthy errJ = false) →
        (queryGeth (some u) now m ps (.resp status statusText body)).1 =
          .ok (getFieldD body "result")) := by
  refine ⟨?_, rfl, ?_, ?_, ?_⟩
  · intro outcome
    cases outcome with
    | timeout => rfl
    | netError msg => rfl
    | resp status statusText body =>
      by_cases h : 200 ≤ status ∧ status ≤ 299
      · simp only [queryGeth]
        rw [if_neg (by simp [h.1, h.2])]
        cases hb : getField body "error" with
        | none => rfl
        | some errJ => rcases htr : jsTruthy errJ <;> simp [htr]
      · simp only [queryGeth]
        rw [if_pos (by rcases Decidable.not_and_iff_or_not.mp h with h' | h' <;> simp [h'])]
  · intro status statusText body h
    simp only [queryGeth]
    rw [if_pos ?_]
    rcases h with h | h
    · have : decide (200 ≤ status) = false := decide_eq_false (by omega)
      simp [this]
    · have : decide (status ≤ 299) = false := decide_eq_false (by omega)
      simp [this]
  · intro status statusText body errJ h1 h2 hget htr
    simp only [queryGeth]
    rw [if_neg (by simp [h1, h2]), hget]
    simp [htr]
  · intro status statusText body h1 h2 herr
    simp only [queryGeth]
    rw [if_neg (by simp [h1, h2])]
    cases hb : getField body "error" with
    | none => rfl
    | some errJ => simp [herr errJ hb]

/-- C8 witness: the request body, the timeout branch, a 500 branch, a truthy
    error branch and a success branch at concrete inputs. -/
theorem queryGeth_contract_witness :
    (queryGeth (some "http://node/") 5 "eth_blockNumber" [] .timeout).2 =
      [⟨"http://node", queryGethRequestBody "eth_blockNumber" [] 5⟩] ∧
    (queryGeth (some "http://node/") 5 "eth_blockNumber" [] .timeout).1 =
      .error "Upstream request timed out" ∧
    (queryGeth (some "http://node/") 5 "eth_blockNumber" []
        (.resp 500 "Internal Server Error" .null)).1 =
      .error "Upstream HTTP 500 Internal Server Error" ∧
    (queryGeth (some "http://node/") 5 "eth_blockNumber" []
        (.resp 200 "OK" (.obj [("error", .obj [("message", .str "boom")])]))).1 =
      .error "Geth error: boom" ∧
    (queryGeth (some "http://node/") 5 "eth_blockNumber" []
        (.resp 200 "OK" (.obj [("result", .str "0x10")]))).1 = .ok (.str "0x10") := by
  have h := queryGeth_contract "http://node/" 5 "eth_blockNumber" []
  refine ⟨h.1 .timeout, h.2.1, ?_, ?_, ?_⟩
  · have := h.2.2.1 500 "Internal Server Error" .null (by omega)
    simpa using this
  · have := h.2.2.2.1 200 "OK" (.obj [("error", .obj [("message", .str "boom")])])
      (.obj [("message", .str "boom")]) (by omega) (by omega) rfl rfl
    simpa using this
  · have := h.2.2.2.2 200 "OK" (.obj [("result", .str "0x10")]) (by omega) (by omega)
      (by intro errJ hget; simp [getField, lookupField] at hget)
    simpa using this

/-- C8 counterexample to the claim as stated: a 200 response whose decoded body
    HAS an `error` field (bound to `null`) does not fail — the source tests
    truthiness, not presence — and instead returns the `result` field. -/
theorem queryGeth_error_present_counterexample :
    getField (.obj [("error", Json.null), ("result", .num 7)]) "error" = some Json.null ∧
    (queryGeth (some "http://node") 0 "eth_blockNumber" []
        (.resp 200 "OK" (.obj [("error", Json.null), ("result", .num 7)]))).1 =
      .ok (.num 7) :=
  ⟨rfl, rfl⟩

/- ---------------------------------------------------------------------------
   Hex/decimal round-trip (C7)
--------------------------------------------------------------------------- -/

/-- With enough fuel, `digitsFuel` computes `Nat.digits`. -/
theorem digitsFuel_eq_digits (b : Nat) (hb : 2 ≤ b) :
    ∀ fuel n, n ≤ fuel → digitsFuel b fuel n = Nat.digits b n := by
  intro fuel
  induction fuel with
  | zero =>
    intro n hn
    have : n = 0 := Nat.le_zero.mp hn
    subst this
    simp [digitsFuel]
  | succ f ih =>
    intro n hn
    match n with
    | 0 => simp [digitsFuel]
    | k + 1 =>
      have hdiv : (k + 1) / b ≤ f := by
        have h1 : (k + 1) / b < k + 1 := Nat.div_lt_self (Nat.succ_pos k) (by omega)
        omega
      simp only [digitsFuel]
      rw [ih _ hdiv, ← Nat.digits_def' (by omega : 1 < b) (Nat.succ_pos k)]

/-- `myDigits` agrees with `Nat.digits` for any base at least 2. -/
theorem myDigits_eq_digits (b : Nat) (hb : 2 ≤ b) (n : Nat) :
    myDigits b n = Nat.digits b n :=
  digitsFuel_eq_digits b hb n n le_rfl

/-- A big-endian digit-character fold is `Nat.ofDigits` of the reversed values. -/
theorem foldl_base (b : Nat) (v : Char → Nat) :
    ∀ (l : List Char) (acc : Nat),
      List.foldl (fun a c => b * a + v c) acc l =
        acc * b ^ l.length + Nat.ofDigits b (l.map v).reverse := by
  intro l
  induction l with
  | nil => intro acc; simp
  | cons c t ih =>
    intro acc
    rw [List.foldl_cons, ih, List.map_cons, List.reverse_cons, Nat.ofDigits_append]
    simp only [List.length_cons, List.length_reverse, List.length_map,
      Nat.ofDigits_singleton]
    ring

/-- Decimal digit characters decode back to their digit. -/
theorem decDigit_round : ∀ d, d < 10 → (decDigitChar d).toNat - 48 = d := by decide

/-- `BigInt(n.toString())` is `n`: the decimal numeral re-parses to its value. -/
theorem parseDec_decString (n : Nat) : parseDecNat (decStringOfNat n) = n := by
  by_cases h : n = 0
  · subst h; decide
  · unfold parseDecNat decStringOfNat decCharsVal
    rw [if_neg h]
    show List.foldl (fun a c => 10 * a + (c.toNat - 48)) 0
        ((myDigits 10 n).reverse.map decDigitChar) = n
    rw [foldl_base 10 (fun c => c.toNat - 48), List.map_map,
        myDigits_eq_digits 10 (by omega)]
    have hcg : (Nat.digits 10 n).reverse.map ((fun c => c.toNat - 48) ∘ decDigitChar) =
        (Nat.digits 10 n).reverse.map id := by
      apply List.map_congr_left
      intro d hd
      have hlt : d < 10 :=
        Nat.digits_lt_base (by omega) (List.mem_reverse.mp hd)
      simpa using decDigit_round d hlt
    rw [hcg, List.map_id, List.reverse_reverse, Nat.ofDigits_digits]
    omega

/-- Hex digit characters decode back to their digit. -/
theorem hexDigit_round : ∀ d, d < 16 → hexDigitVal (hexDigitChar d) = d := by decide

/-- The canonical hex rendering of `n` denotes `n`. -/
theorem hexVal_toHexCanonical (n : Nat) : hexStringVal (toHexCanonical n) = n := by
  by_cases h : n = 0
  · subst h; decide
  · unfold toHexCanonical hexStringVal
    rw [if_neg h]
    show hexCharsVal ((myDigits 16 n).reverse.map hexDigitChar) = n
    unfold hexCharsVal
    rw [foldl_base 16 hexDigitVal, List.map_map, myDigits_eq_digits 16 (by omega)]
    have hcg : (Nat.digits 16 n).reverse.map (hexDigitVal ∘ hexDigitChar) =
        (Nat.digits 16 n).reverse.map id := by
      apply List.map_congr_left
      intro d hd
      have hlt : d < 16 :=
        Nat.digits_lt_base (by omega) (List.mem_reverse.mp hd)
      simpa using hexDigit_round d hlt
    rw [hcg, List.map_id, List.reverse_reverse, Nat.ofDigits_digits]
    omega

/-- `isCanonicalHex` on an explicitly-built `0x` literal. -/
theorem isCanonicalHex_mk (D : List Char) :
    isCanonicalHex ⟨'0' :: 'x' :: D⟩ =
      (!D.isEmpty && D.all isLowerHexDigit &&
        (D == ['0'] || !(D.head? == some '0'))) := rfl

/-- Hex digit characters are lowercase hex digits. -/
theorem hexChar_lower : ∀ d, d < 16 → isLowerHexDigit (hexDigitChar d) = true := by decide

/-- A nonzero hex digit does not render as '0'. -/
theorem hexChar_ne_zero : ∀ d, d < 16 → d ≠ 0 → (hexDigitChar d == '0') = false := by decide

/-- The canonical hex rendering is canonical: lowercase, no leading zero. -/
theorem isCanonical_toHexCanonical (n : Nat) :
    isCanonicalHex (toHexCanonical n) = true := by
  by_cases h : n = 0
  · subst h; decide
  · unfold toHexCanonical
    rw [if_neg h, isCanonicalHex_mk, myDigits_eq_digits 16 (by omega)]
    have hne : Nat.digits 16 n ≠ [] := Nat.digits_ne_nil_iff_ne_zero.mpr h
    rcases (Nat.digits 16 n).eq_nil_or_concat' with hnil | ⟨L, d, hLd⟩
    · exact absurd hnil hne
    have hd16 : d < 16 := Nat.digits_lt_base (by omega)
      (by rw [hLd]; exact List.mem_append_right _ (List.mem_singleton_self d))
    have hglast : (Nat.digits 16 n).getLast? = some d := by
      rw [hLd]; simp
    have hgl := List.getLast?_eq_getLast_of_ne_nil hne
    have hdval : (Nat.digits 16 n).getLast hne = d := by
      rw [hgl] at hglast; exact Option.some.inj hglast
    have hdne : d ≠ 0 := hdval ▸ Nat.getLast_digit_ne_zero 16 h
    have hall : ((Nat.digits 16 n).reverse.map hexDigitChar).all isLowerHexDigit = true := by
      rw [List.all_eq_true]
      intro c hc
      rcases List.mem_map.mp hc with ⟨dd, hdd, rfl⟩
      exact hexChar_lower dd (Nat.digits_lt_base (by omega) (List.mem_reverse.mp hdd))
    rw [hLd, List.reverse_concat', List.map_cons]
    rw [hLd, List.reverse_concat', List.map_cons] at hall
    simp only [List.isEmpty_cons, List.head?_cons, Bool.not_false, Bool.true_and]
    rw [hall]
    simp [hexChar_ne_zero d hd16 hdne]

/-- C7: `hexToDecimalMaybe` is total; on every string matching
    `^0x[0-9a-fA-F]+$` it returns the base-10 numeral of the literal's value —
    a numeral that re-parses to that exact value and whose hex reformatting is
    the canonical (lowercase, no leading zero) form of the input, a string that
    is itself canonical and denotes the same value; on every non-matching
    string, and on every non-string input, it returns null (`none`). -/
theorem hexToDecimalMaybe_spec (s : String) (j : Json) :
    (matchesHexLiteral s = true →
       hexToDecimalMaybe (.str s) = some (decStringOfNat (hexStringVal s)) ∧
       parseDecNat (decStringOfNat (hexStringVal s)) = hexStringVal s ∧
       toHexCanonical (parseDecNat (decStringOfNat (hexStringVal s))) =
         toHexCanonical (hexStringVal s) ∧
       isCanonicalHex (toHexCanonical (hexStringVal s)) = true ∧
       hexStringVal (toHexCanonical (hexStringVal s)) = hexStringVal s) ∧
    (matchesHexLiteral s = false → hexToDecimalMaybe (.str s) = none) ∧
    ((∀ t, j ≠ .str t) → hexToDecimalMaybe j = none) := by
  refine ⟨?_, ?_, ?_⟩
  · intro hm
    exact ⟨by simp [hexToDecimalMaybe, hm], parseDec_decString _,
      by rw [parseDec_decString], isCanonical_toHexCanonical _,
      hexVal_toHexCanonical _⟩
  · intro hm
    simp [hexToDecimalMaybe, hm]
  · intro hj
    cases j <;> first | rfl | exact absurd rfl (hj _)

/-- C7 witness: a matching literal with leading zeros and mixed case, a
    non-matching string, and a non-string input. -/
theorem hexToDecimalMaybe_spec_witness :
    matchesHexLiteral "0x00Ff" = true ∧
    hexToDecimalMaybe (.str "0x00Ff") = some "255" ∧
    parseDecNat "255" = 255 ∧
    toHexCanonical 255 = "0xff" ∧
    isCanonicalHex "0xff" = true ∧
    hexToDecimalMaybe (.str "0xzz") = none ∧
    hexToDecimalMaybe (.bool true) = none := by
  have h := hexToDecimalMaybe_spec "0x00Ff" (.bool true)
  obtain ⟨h1, _h2, _h3, _h4, _h5⟩ := h.1 (by decide)
  refine ⟨by decide, h1.trans (by decide), by decide, by decide, by decide, ?_, ?_⟩
  · exact (hexToDecimalMaybe_spec "0xzz" (.bool true)).2.1 (by decide)
  · exact h.2.2 (fun t ht => Json.noConfusion ht)
